import Mathlib

/-!
Verification development for the state coordination core of the
zenbook-duo-daemon repository.

The definitions below are a shallow embedding of the Rust sources:

* `src/state.rs` — `KeyboardBacklightState`, `InnerState`, and the methods of
  `KeyboardStateManager`.  Each mutating method is embedded as a pure function
  `InnerState → InnerState × List Event`, returning the new state together
  with the list of events published on the broadcast channel, in publish
  order.  A `send(..).ok()` whose receiver may be gone still counts as a
  publish, since publish failure is silently ignored by the code.
* `src/unix_pipe.rs` — the command dispatcher of
  `start_receive_commands_task`.
* `src/keyboard_usb.rs`, `src/keyboard_bt.rs`, `src/bt_keyboard_thread.rs` —
  the hotplug monitor start decisions and the raw-value dispatch of the read
  loops.
* `src/virtual_keyboard.rs` — `VirtualKeyboard::release_all_keys`.
* `src/secondary_display.rs` — the event handler of
  `start_secondary_display_task`.
-/

namespace ZenbookDuoDaemon

/-- Backlight levels, from `KeyboardBacklightState` in src/state.rs. -/
inductive KeyboardBacklightState
  | Off
  | Low
  | Medium
  | High
deriving DecidableEq, Repr, Fintype

/-- Cyclic successor, from `KeyboardBacklightState::next` in src/state.rs. -/
def KeyboardBacklightState.next : KeyboardBacklightState → KeyboardBacklightState
  | .Off => .Low
  | .Low => .Medium
  | .Medium => .High
  | .High => .Off

/-- Events published on the broadcast channel.  The variants are those sent by
src/state.rs (`MicMuteLed`, `Backlight`, `SecondaryDisplay`); the remaining
variants appear in src/events.rs and are carried along for the consumers. -/
inductive Event
  | MicMuteLed (enabled : Bool)
  | Backlight (level : KeyboardBacklightState)
  | SecondaryDisplay (enabled : Bool)
  | LaptopSuspend
  | LaptopResume
  | MicMuteLedToggle
  | BacklightToggle
  | SecondaryDisplayToggle
  | USBKeyboardAttached
  | USBKeyboardDetached
deriving DecidableEq, Repr

/-- The fields of `InnerState` in src/state.rs. -/
structure InnerState where
  backlight : KeyboardBacklightState
  mic_mute_led : Bool
  is_idle : Bool
  is_usb_attached : Bool
  is_secondary_display_enabled : Bool
deriving DecidableEq, Repr, Fintype

/-- Embeds `KeyboardStateManager::new` in src/state.rs: the initial state
seeded with the probe result for the wired keyboard. -/
def newManager (is_usb_attached : Bool) : InnerState :=
  { backlight := KeyboardBacklightState.Low
    mic_mute_led := false
    is_idle := false
    is_usb_attached := is_usb_attached
    is_secondary_display_enabled := !is_usb_attached }

/-- Embeds `KeyboardStateManager::idle_start` in src/state.rs. -/
def idle_start (s : InnerState) : InnerState × List Event :=
  ({ s with is_idle := true },
   [Event.MicMuteLed false, Event.Backlight KeyboardBacklightState.Off])

/-- Embeds `KeyboardStateManager::idle_end` in src/state.rs. -/
def idle_end (s : InnerState) : InnerState × List Event :=
  ({ s with is_idle := false },
   [Event.MicMuteLed s.mic_mute_led, Event.Backlight s.backlight])

/-- Embeds `KeyboardStateManager::set_mic_mute_led` in src/state.rs. -/
def set_mic_mute_led (s : InnerState) (enabled : Bool) : InnerState × List Event :=
  ({ s with mic_mute_led := enabled },
   if s.is_idle then [] else [Event.MicMuteLed enabled])

/-- Embeds `KeyboardStateManager::toggle_mic_mute_led` in src/state.rs. -/
def toggle_mic_mute_led (s : InnerState) : InnerState × List Event :=
  ({ s with mic_mute_led := !s.mic_mute_led },
   if s.is_idle then [] else [Event.MicMuteLed (!s.mic_mute_led)])

/-- Embeds `KeyboardStateManager::get_mic_mute_led` in src/state.rs. -/
def get_mic_mute_led (s : InnerState) : Bool :=
  s.mic_mute_led

/-- Embeds `KeyboardStateManager::set_keyboard_backlight` in src/state.rs. -/
def set_keyboard_backlight (s : InnerState) (new_state : KeyboardBacklightState) :
    InnerState × List Event :=
  ({ s with backlight := new_state },
   if s.is_idle then [] else [Event.Backlight new_state])

/-- Embeds `KeyboardStateManager::toggle_keyboard_backlight` in src/state.rs. -/
def toggle_keyboard_backlight (s : InnerState) : InnerState × List Event :=
  ({ s with backlight := s.backlight.next },
   if s.is_idle then [] else [Event.Backlight s.backlight.next])

/-- Embeds `KeyboardStateManager::get_keyboard_backlight` in src/state.rs. -/
def get_keyboard_backlight (s : InnerState) : KeyboardBacklightState :=
  s.backlight

/-- Embeds `KeyboardStateManager::set_secondary_display` in src/state.rs:
store the requested value, then force it to `false` while the wired keyboard
is attached, then publish the resulting value unconditionally. -/
def set_secondary_display (s : InnerState) (enabled : Bool) : InnerState × List Event :=
  let s1 := { s with is_secondary_display_enabled := enabled }
  let s2 :=
    if s1.is_usb_attached then { s1 with is_secondary_display_enabled := false } else s1
  (s2, [Event.SecondaryDisplay s2.is_secondary_display_enabled])

/-- Embeds `KeyboardStateManager::toggle_secondary_display` in src/state.rs. -/
def toggle_secondary_display (s : InnerState) : InnerState × List Event :=
  let s1 := { s with is_secondary_display_enabled := !s.is_secondary_display_enabled }
  let s2 :=
    if s1.is_usb_attached then { s1 with is_secondary_display_enabled := false } else s1
  (s2, [Event.SecondaryDisplay s2.is_secondary_display_enabled])

/-- Embeds `KeyboardStateManager::set_usb_keyboard_attached` in src/state.rs. -/
def set_usb_keyboard_attached (s : InnerState) (attached : Bool) : InnerState × List Event :=
  let s1 := { s with is_usb_attached := attached }
  let s2 :=
    if attached then { s1 with is_secondary_display_enabled := false }
    else { s1 with is_secondary_display_enabled := true }
  (s2, [Event.SecondaryDisplay s2.is_secondary_display_enabled])

/-- Embeds `KeyboardStateManager::is_secondary_display_enabled` in
src/state.rs. -/
def is_secondary_display_enabled_getter (s : InnerState) : Bool :=
  s.is_secondary_display_enabled

/-- Embeds `KeyboardStateManager::is_idle` in src/state.rs. -/
def is_idle_getter (s : InnerState) : Bool :=
  s.is_idle

/-- One operation of the state store: each constructor corresponds to one
mutating method of `KeyboardStateManager` in src/state.rs. -/
inductive Op
  | idleStart
  | idleEnd
  | setMicMuteLed (enabled : Bool)
  | toggleMicMuteLed
  | setKeyboardBacklight (level : KeyboardBacklightState)
  | toggleKeyboardBacklight
  | setSecondaryDisplay (enabled : Bool)
  | toggleSecondaryDisplay
  | setUsbKeyboardAttached (attached : Bool)
deriving DecidableEq, Repr, Fintype

/-- Apply one state-store operation, returning the new state and the events
it publishes. -/
def applyOp (s : InnerState) : Op → InnerState × List Event
  | .idleStart => idle_start s
  | .idleEnd => idle_end s
  | .setMicMuteLed b => set_mic_mute_led s b
  | .toggleMicMuteLed => toggle_mic_mute_led s
  | .setKeyboardBacklight l => set_keyboard_backlight s l
  | .toggleKeyboardBacklight => toggle_keyboard_backlight s
  | .setSecondaryDisplay b => set_secondary_display s b
  | .toggleSecondaryDisplay => toggle_secondary_display s
  | .setUsbKeyboardAttached b => set_usb_keyboard_attached s b

/-- Run a sequence of state-store operations, keeping only the state. -/
def runOps (s : InnerState) (ops : List Op) : InnerState :=
  ops.foldl (fun st op => (applyOp st op).1) s

/-- Invariant I1 as a boolean: the keyboard-attached flag and the
secondary-display flag are never both true. -/
def displayInvariant (s : InnerState) : Bool :=
  !(s.is_usb_attached && s.is_secondary_display_enabled)

/-- An input event written to the synthetic uinput device by
src/virtual_keyboard.rs: a key event with a value (1 = press, 0 = release,
from `KeyEventType::value`) or a SYN_REPORT. -/
inductive UInputEvent
  | Key (key : Nat) (value : Int)
  | SynReport
deriving DecidableEq, Repr

/-- The mutable part of `VirtualKeyboard` in src/virtual_keyboard.rs: the list
of currently synthetically pressed keys (EV_KEY codes abstracted as Nat). -/
structure VirtualKeyboard where
  pressed_keys : List Nat
deriving DecidableEq, Repr

/-- Embeds `VirtualKeyboard::release_all_keys` in src/virtual_keyboard.rs:
when any keys are pressed, write a release event for each of them followed by
a SYN_REPORT and clear the list; when none are pressed, do nothing. -/
def release_all_keys (vk : VirtualKeyboard) : VirtualKeyboard × List UInputEvent :=
  if vk.pressed_keys.isEmpty then (vk, [])
  else ({ vk with pressed_keys := [] },
        vk.pressed_keys.map (fun k => UInputEvent.Key k 0) ++ [UInputEvent.SynReport])

/-- The configurable function keys of src/config.rs, as named in the read-loop
dispatches of src/keyboard_usb.rs and src/bt_keyboard_thread.rs. -/
inductive ConfigKey
  | keyboard_backlight_key
  | brightness_down_key
  | brightness_up_key
  | swap_up_down_display_key
  | microphone_mute_key
  | emoji_picker_key
  | myasus_key
  | toggle_secondary_display_key
deriving DecidableEq, Repr

/-- What the USB read loop does with one completed report. -/
inductive KeyAction
  | ReleaseAll
  | Execute (key : ConfigKey)
deriving DecidableEq, Repr

/-- The match over the report bytes in the read loop of
`start_wired_keyboard_task` (src/keyboard_usb.rs 169-231): the neutral report
[90,0,0,0,0,0] releases all keys, eight recognized reports execute the
configured key function, and any other report falls to the catch-all arm,
which also releases all keys. -/
def usbDispatch (data : List Nat) : KeyAction :=
  if data = [90, 0, 0, 0, 0, 0] then KeyAction.ReleaseAll
  else if data = [90, 199, 0, 0, 0, 0] then KeyAction.Execute ConfigKey.keyboard_backlight_key
  else if data = [90, 16, 0, 0, 0, 0] then KeyAction.Execute ConfigKey.brightness_down_key
  else if data = [90, 32, 0, 0, 0, 0] then KeyAction.Execute ConfigKey.brightness_up_key
  else if data = [90, 156, 0, 0, 0, 0] then KeyAction.Execute ConfigKey.swap_up_down_display_key
  else if data = [90, 124, 0, 0, 0, 0] then KeyAction.Execute ConfigKey.microphone_mute_key
  else if data = [90, 126, 0, 0, 0, 0] then KeyAction.Execute ConfigKey.emoji_picker_key
  else if data = [90, 134, 0, 0, 0, 0] then KeyAction.Execute ConfigKey.myasus_key
  else if data = [90, 106, 0, 0, 0, 0] then
    KeyAction.Execute ConfigKey.toggle_secondary_display_key
  else KeyAction.ReleaseAll

/-- The eight recognized non-neutral USB reports. -/
def isRecognizedUsb (data : List Nat) : Bool :=
  data == [90, 199, 0, 0, 0, 0] || data == [90, 16, 0, 0, 0, 0] ||
  data == [90, 32, 0, 0, 0, 0] || data == [90, 156, 0, 0, 0, 0] ||
  data == [90, 124, 0, 0, 0, 0] || data == [90, 126, 0, 0, 0, 0] ||
  data == [90, 134, 0, 0, 0, 0] || data == [90, 106, 0, 0, 0, 0]

/-- The key-press events of src/events.rs, sent by the Bluetooth read loop and
consumed by `virtual_keyboard_consumer`. -/
inductive KeyPressEvent
  | KeyboardBacklightKeyPressed
  | BrightnessDownKeyPressed
  | BrightnessUpKeyPressed
  | SwapUpDownDisplayKeyPressed
  | MicrophoneMuteKeyPressed
  | EmojiPickerKeyPressed
  | MyAsusKeyPressed
  | ToggleSecondaryDisplayKeyPressed
  | AllKeysReleased
deriving DecidableEq, Repr

/-- The ABS_MISC dispatch of `bt_keyboard_thread` (src/bt_keyboard_thread.rs
144-195): value 0 sends AllKeysReleased, eight recognized values send the
matching key-press event, and the final else branch — every other value —
also sends AllKeysReleased. -/
def btDispatch (value : Int) : KeyPressEvent :=
  if value = 0 then KeyPressEvent.AllKeysReleased
  else if value = 199 then KeyPressEvent.KeyboardBacklightKeyPressed
  else if value = 16 then KeyPressEvent.BrightnessDownKeyPressed
  else if value = 32 then KeyPressEvent.BrightnessUpKeyPressed
  else if value = 156 then KeyPressEvent.SwapUpDownDisplayKeyPressed
  else if value = 124 then KeyPressEvent.MicrophoneMuteKeyPressed
  else if value = 126 then KeyPressEvent.EmojiPickerKeyPressed
  else if value = 134 then KeyPressEvent.MyAsusKeyPressed
  else if value = 106 then KeyPressEvent.ToggleSecondaryDisplayKeyPressed
  else KeyPressEvent.AllKeysReleased

/-- The eight recognized non-neutral ABS_MISC values. -/
def isRecognizedBt (value : Int) : Bool :=
  value == 199 || value == 16 || value == 32 || value == 156 ||
  value == 124 || value == 126 || value == 134 || value == 106

/-- The wired-keyboard identity from src/config.rs (`Config::vendor_id` and
`Config::product_id`). -/
structure UsbConfigIds where
  vendor_id : Nat
  product_id : Nat
deriving DecidableEq, Repr

/-- What a nusb `DeviceInfo` exposes to the monitor decision, plus an abstract
identifier of the physical transport endpoint it belongs to. -/
structure UsbDeviceInfo where
  vendor_id : Nat
  product_id : Nat
  endpoint_id : Nat
deriving DecidableEq, Repr

/-- A live wired-keyboard session: it was started on, and reads and writes,
one device. -/
structure UsbSession where
  device : UsbDeviceInfo
deriving DecidableEq, Repr

/-- The nusb hotplug events consumed by the monitor. -/
inductive HotplugEvent
  | Connected (d : UsbDeviceInfo)
  | Disconnected (d : UsbDeviceInfo)
deriving DecidableEq, Repr

/-- Embeds `find_wired_keyboard` in src/keyboard_usb.rs: the first
currently-present device whose vendor and product ids match the config. -/
def find_wired_keyboard (cfg : UsbConfigIds) (present : List UsbDeviceInfo) :
    Option UsbDeviceInfo :=
  present.find? (fun d => d.vendor_id == cfg.vendor_id && d.product_id == cfg.product_id)

/-- One step of `start_usb_keyboard_monitor_task` (src/keyboard_usb.rs 32-58):
on a Connected event whose ids match the config, `find_wired_keyboard` is
consulted and a session is started for the device it returns; the list of
live sessions is never consulted and no session is ever torn down here
(Disconnected is deliberately ignored — each session detects its own
disconnection). -/
def usbMonitorStep (cfg : UsbConfigIds) (present : List UsbDeviceInfo)
    (live : List UsbSession) : HotplugEvent → List UsbSession
  | HotplugEvent.Connected d =>
      if d.vendor_id == cfg.vendor_id && d.product_id == cfg.product_id then
        match find_wired_keyboard cfg present with
        | some keyboard => live ++ [{ device := keyboard }]
        | none => live
      else live
  | HotplugEvent.Disconnected _ => live

/-- Number of live sessions bound to one device. -/
def sessionsForDevice (live : List UsbSession) (d : UsbDeviceInfo) : Nat :=
  (live.filter (fun s => s.device == d)).length

/-- What the Bluetooth monitor sees about one /dev/input entry. -/
structure InputDeviceNode where
  is_dir : Bool
  file_name : String
  device_name : Option String
deriving DecidableEq, Repr

/-- A live Bluetooth-keyboard session bound to one /dev/input node. -/
structure BtSession where
  node : InputDeviceNode
deriving DecidableEq, Repr

/-- Embeds `try_start_bt_keyboard_task` (src/keyboard_bt.rs 86-129), into
which both the initial scan and every inotify CREATE funnel
(src/keyboard_bt.rs 64-83): skip directories and non-"event*" names, open the
device, and start a session whenever its declared name is "ASUS Zenbook Duo
Keyboard" — without consulting the live sessions (the code comments that
multiple event files for the same keyboard may start multiple tasks). -/
def try_start_bt_keyboard_task (node : InputDeviceNode) (live : List BtSession) :
    List BtSession :=
  if node.is_dir then live
  else if !(node.file_name.startsWith "event") then live
  else if node.device_name = some "ASUS Zenbook Duo Keyboard" then live ++ [{ node := node }]
  else live

/-- Daemon state for the command dispatcher: the src/state.rs `InnerState`
together with the suspended flag.  The flag and the two suspend methods are
modelled from the spec (see `suspend_start` below). -/
structure DaemonState where
  inner : InnerState
  is_suspended : Bool
deriving DecidableEq, Repr, Fintype

/-- Modelled from the spec: `KeyboardStateManager::suspend_start` is invoked
from src/unix_pipe.rs but neither it, `suspend_end`, nor an `is_suspended`
field is defined in src/state.rs.  Per spec sections 3, 4.1 and 4.5:
suspend_start sets the suspended flag and forces the effective backlight and
mic-mute values off, without overwriting the stored desired values. -/
def suspend_start (s : DaemonState) : DaemonState × List Event :=
  ({ s with is_suspended := true },
   [Event.MicMuteLed false, Event.Backlight KeyboardBacklightState.Off])

/-- Modelled from the spec: `KeyboardStateManager::suspend_end` clears the
suspended flag and always republishes the stored desired values (spec
section 4.1 and invariant I4: suspend-end must always republish). -/
def suspend_end (s : DaemonState) : DaemonState × List Event :=
  ({ s with is_suspended := false },
   [Event.MicMuteLed s.inner.mic_mute_led, Event.Backlight s.inner.backlight])

/-- Lift a src/state.rs mutator to the dispatcher state. -/
def liftInner (f : InnerState → InnerState × List Event) (s : DaemonState) :
    DaemonState × List Event :=
  ({ s with inner := (f s.inner).1 }, (f s.inner).2)

/-- The command dispatcher of `start_receive_commands_task`
(src/unix_pipe.rs 75-127): each recognized line maps to exactly one
state-manager call; an unrecognized line is only logged.  (`suspend_end`
additionally notifies the idle engine, which is outside the state store.) -/
def dispatchCommand (line : String) (s : DaemonState) : DaemonState × List Event :=
  if line = "suspend_start" then suspend_start s
  else if line = "suspend_end" then suspend_end s
  else if line = "mic_mute_led_toggle" then liftInner toggle_mic_mute_led s
  else if line = "mic_mute_led_on" then liftInner (fun st => set_mic_mute_led st true) s
  else if line = "mic_mute_led_off" then liftInner (fun st => set_mic_mute_led st false) s
  else if line = "backlight_toggle" then liftInner toggle_keyboard_backlight s
  else if line = "backlight_off" then
    liftInner (fun st => set_keyboard_backlight st KeyboardBacklightState.Off) s
  else if line = "backlight_low" then
    liftInner (fun st => set_keyboard_backlight st KeyboardBacklightState.Low) s
  else if line = "backlight_medium" then
    liftInner (fun st => set_keyboard_backlight st KeyboardBacklightState.Medium) s
  else if line = "backlight_high" then
    liftInner (fun st => set_keyboard_backlight st KeyboardBacklightState.High) s
  else if line = "secondary_display_toggle" then liftInner toggle_secondary_display s
  else if line = "secondary_display_on" then liftInner (fun st => set_secondary_display st true) s
  else if line = "secondary_display_off" then
    liftInner (fun st => set_secondary_display st false) s
  else (s, [])

/-- The recognized command vocabulary of src/unix_pipe.rs. -/
def isRecognizedCommand (line : String) : Bool :=
  line == "suspend_start" || line == "suspend_end" || line == "mic_mute_led_toggle" ||
  line == "mic_mute_led_on" || line == "mic_mute_led_off" || line == "backlight_toggle" ||
  line == "backlight_off" || line == "backlight_low" || line == "backlight_medium" ||
  line == "backlight_high" || line == "secondary_display_toggle" ||
  line == "secondary_display_on" || line == "secondary_display_off"

/-- The dispatcher loop over a sequence of received lines: every line is
dispatched and processing always continues with the next line. -/
def runCommands : List String → DaemonState → DaemonState × List Event
  | [], s => (s, [])
  | line :: rest, s =>
      let step := dispatchCommand line s
      let next := runCommands rest step.1
      (next.1, step.2 ++ next.2)

/-- The initial dispatcher state: the state store seeded with no wired
keyboard attached and not suspended. -/
def initialDaemonState : DaemonState :=
  { inner := newManager false, is_suspended := false }

/-- The event handler of `start_secondary_display_task` in
src/secondary_display.rs: given the current attached flag and display flag,
return the display value it writes (to the state manager and to the panel
status file), or none when the event is ignored. -/
def secondaryDisplayHandlerStep (is_usb_attached current : Bool) : Event → Option Bool
  | Event.SecondaryDisplayToggle =>
      if is_usb_attached then none else some (!current)
  | Event.USBKeyboardAttached => some false
  | Event.USBKeyboardDetached => some true
  | _ => none

theorem applyOp_preserves_displayInvariant (s : InnerState) (op : Op)
    (h : displayInvariant s = true) : displayInvariant (applyOp s op).1 = true := by
  cases op <;>
    simp_all [applyOp, displayInvariant, idle_start, idle_end, set_mic_mute_led,
      toggle_mic_mute_led, set_keyboard_backlight, toggle_keyboard_backlight,
      set_secondary_display, toggle_secondary_display, set_usb_keyboard_attached] <;>
    split <;> simp_all

theorem runOps_preserves_displayInvariant (s : InnerState) (ops : List Op)
    (h : displayInvariant s = true) : displayInvariant (runOps s ops) = true := by
  induction ops generalizing s with
  | nil => exact h
  | cons op rest ih =>
      exact ih _ (applyOp_preserves_displayInvariant s op h)

theorem newManager_displayInvariant (b : Bool) : displayInvariant (newManager b) = true := by
  cases b <;> decide

theorem release_all_keys_pressed_nil (vk : VirtualKeyboard) :
    (release_all_keys vk).1.pressed_keys = [] := by
  unfold release_all_keys
  split
  · next h => simpa [List.isEmpty_iff] using h
  · rfl

theorem release_all_keys_of_nil (vk : VirtualKeyboard) (h : vk.pressed_keys = []) :
    release_all_keys vk = (vk, []) := by
  unfold release_all_keys
  simp [h]

/-- C1: for every sequence of state-store operations starting from the initial
state, whenever the keyboard-attached flag is true the secondary-display flag
is false; immediately after `set_usb_keyboard_attached(true)` the display flag
is false regardless of the prior state, and a `set_secondary_display(true)` or
`toggle_secondary_display` issued while attached also leaves it false. -/
theorem C1_display_invariant :
    (∀ (b : Bool) (ops : List Op),
        ((runOps (newManager b) ops).is_usb_attached &&
          (runOps (newManager b) ops).is_secondary_display_enabled) = false) ∧
    (∀ s : InnerState,
        is_secondary_display_enabled_getter (set_usb_keyboard_attached s true).1 = false) ∧
    (∀ s : InnerState,
        is_secondary_display_enabled_getter
          (set_secondary_display { s with is_usb_attached := true } true).1 = false ∧
        is_secondary_display_enabled_getter
          (toggle_secondary_display { s with is_usb_attached := true }).1 = false) := by
  refine ⟨fun b ops => ?_, by decide, by decide⟩
  have h := runOps_preserves_displayInvariant (newManager b) ops (newManager_displayInvariant b)
  simpa only [displayInvariant, Bool.not_eq_true'] using h

/-- C2 counterexample: in the state with stored backlight High, stored mic LED
true and the idle flag set, `get_keyboard_backlight` returns High (not Off)
and `get_mic_mute_led` returns true (not false): the getters in src/state.rs
return the stored values without idle shadowing. -/
theorem C2_counterexample :
    (InnerState.mk KeyboardBacklightState.High true true false true).is_idle = true ∧
    get_keyboard_backlight (InnerState.mk KeyboardBacklightState.High true true false true) ≠
      KeyboardBacklightState.Off ∧
    get_mic_mute_led (InnerState.mk KeyboardBacklightState.High true true false true) ≠ false := by
  decide

/-- C2 amended: the getters return the stored desired values regardless of the
idle flag (the state store has no suspended flag at all); the Off/false
shadowing while idle is applied to the published events instead — idle_start
publishes MicMuteLed(false) and Backlight(Off), the backlight and mic-mute
setters publish nothing while idle, and idle_end republishes the stored
values. -/
theorem C2_getters_raw_shadowing_on_events :
    ∀ (s : InnerState) (l : KeyboardBacklightState) (b : Bool),
      get_keyboard_backlight s = s.backlight ∧
      get_mic_mute_led s = s.mic_mute_led ∧
      (idle_start s).2 =
        [Event.MicMuteLed false, Event.Backlight KeyboardBacklightState.Off] ∧
      (set_keyboard_backlight s l).2 = (if s.is_idle then [] else [Event.Backlight l]) ∧
      (set_mic_mute_led s b).2 = (if s.is_idle then [] else [Event.MicMuteLed b]) ∧
      (idle_end s).2 = [Event.MicMuteLed s.mic_mute_led, Event.Backlight s.backlight] := by
  decide

/-- C3 counterexample: in the initial state (mic LED false, not idle),
`set_mic_mute_led(false)` leaves the state — and hence every effective value —
unchanged, yet it still publishes MicMuteLed(false); likewise
`set_secondary_display(true)` with the display already enabled leaves the
state unchanged yet publishes SecondaryDisplay(true).  The claim says such
no-change mutations publish no Event. -/
theorem C3_counterexample :
    get_mic_mute_led (newManager false) = false ∧
    (newManager false).is_idle = false ∧
    (set_mic_mute_led (newManager false) false).1 = newManager false ∧
    (set_mic_mute_led (newManager false) false).2 = [Event.MicMuteLed false] ∧
    is_secondary_display_enabled_getter (newManager false) = true ∧
    (set_secondary_display (newManager false) true).1 = newManager false ∧
    (set_secondary_display (newManager false) true).2 = [Event.SecondaryDisplay true] := by
  decide

/-- C3 amended: whether a mutation publishes is decided by the kind of
mutation and the idle flag, never by comparison with the previous value: the
backlight and mic-mute setters and toggles publish exactly one Event carrying
the new stored value if and only if the store is not idle (even when the
value is unchanged), the display mutations always publish exactly one
SecondaryDisplay Event carrying the new flag (even when it is unchanged), and
setting the backlight while idle updates the raw value and publishes
nothing. -/
theorem C3_publish_by_kind_not_change :
    ∀ (s : InnerState) (b : Bool) (l : KeyboardBacklightState),
      (set_mic_mute_led s b).2 = (if s.is_idle then [] else [Event.MicMuteLed b]) ∧
      (toggle_mic_mute_led s).2 =
        (if s.is_idle then [] else [Event.MicMuteLed (!s.mic_mute_led)]) ∧
      (set_keyboard_backlight s l).2 = (if s.is_idle then [] else [Event.Backlight l]) ∧
      (set_keyboard_backlight s l).1.backlight = l ∧
      (toggle_keyboard_backlight s).2 =
        (if s.is_idle then [] else [Event.Backlight s.backlight.next]) ∧
      (set_secondary_display s b).2 =
        [Event.SecondaryDisplay (set_secondary_display s b).1.is_secondary_display_enabled] ∧
      (toggle_secondary_display s).2 =
        [Event.SecondaryDisplay (toggle_secondary_display s).1.is_secondary_display_enabled] ∧
      (set_usb_keyboard_attached s b).2 =
        [Event.SecondaryDisplay (set_usb_keyboard_attached s b).1.is_secondary_display_enabled] ∧
      (idle_end s).2 = [Event.MicMuteLed s.mic_mute_led, Event.Backlight s.backlight] := by
  decide

/-- C4: idle_start publishes MicMuteLed(false) and Backlight(Off) while
leaving the stored backlight and mic-mute fields untouched, and the
immediately following idle_end publishes the stored values back out, restoring
the desired values exactly. -/
theorem C4_idle_shadow_restore :
    ∀ s : InnerState,
      (idle_start s).2 =
        [Event.MicMuteLed false, Event.Backlight KeyboardBacklightState.Off] ∧
      (idle_start s).1.backlight = s.backlight ∧
      (idle_start s).1.mic_mute_led = s.mic_mute_led ∧
      (idle_end (idle_start s).1).2 =
        [Event.MicMuteLed s.mic_mute_led, Event.Backlight s.backlight] ∧
      (idle_end (idle_start s).1).1 = { s with is_idle := false } := by
  decide

/-- C5 counterexample: with one session already live for the wired keyboard's
endpoint, a further Connected arrival for the very same device makes the USB
monitor start a second session: afterwards two sessions are bound to the same
physical endpoint, so the monitor neither rejected the new session nor tore
down the existing one. -/
theorem C5_counterexample :
    sessionsForDevice
      (usbMonitorStep (UsbConfigIds.mk 0x0b05 0x1bf2)
        [UsbDeviceInfo.mk 0x0b05 0x1bf2 0]
        [UsbSession.mk (UsbDeviceInfo.mk 0x0b05 0x1bf2 0)]
        (HotplugEvent.Connected (UsbDeviceInfo.mk 0x0b05 0x1bf2 0)))
      (UsbDeviceInfo.mk 0x0b05 0x1bf2 0) = 2 := by
  decide

/-- C5 amended: the monitors' start decisions are independent of the live
sessions and never tear a session down — each step only appends whatever it
would start from an empty session list.  Arrivals for an already-owned
endpoint therefore start an additional concurrent session; the sessions
serialize through the shared state store instead of being exclusive. -/
theorem C5_monitors_never_consult_sessions :
    (∀ (cfg : UsbConfigIds) (present : List UsbDeviceInfo) (live : List UsbSession)
        (ev : HotplugEvent),
      usbMonitorStep cfg present live ev = live ++ usbMonitorStep cfg present [] ev) ∧
    (∀ (node : InputDeviceNode) (live : List BtSession),
      try_start_bt_keyboard_task node live = live ++ try_start_bt_keyboard_task node []) := by
  constructor
  · intro cfg present live ev
    cases ev with
    | Connected d =>
        simp only [usbMonitorStep]
        split_ifs with h
        · cases hf : find_wired_keyboard cfg present <;> simp [hf]
        · simp
    | Disconnected d => simp [usbMonitorStep]
  · intro node live
    unfold try_start_bt_keyboard_task
    split_ifs <;> simp

/-- C6: the neutral USB report and the neutral Bluetooth value both trigger
release-all; every unrecognized USB report or Bluetooth value is handled
exactly like the neutral one (release-all, never stale key state); and
release-all empties the whole pressed-key list, not a subset. -/
theorem C6_fail_safe_dispatch :
    usbDispatch [90, 0, 0, 0, 0, 0] = KeyAction.ReleaseAll ∧
    (∀ data : List Nat,
      isRecognizedUsb data = true ∨ usbDispatch data = KeyAction.ReleaseAll) ∧
    btDispatch 0 = KeyPressEvent.AllKeysReleased ∧
    (∀ v : Int, isRecognizedBt v = true ∨ btDispatch v = KeyPressEvent.AllKeysReleased) ∧
    (∀ vk : VirtualKeyboard, (release_all_keys vk).1.pressed_keys = []) := by
  refine ⟨rfl, ?_, rfl, ?_, release_all_keys_pressed_nil⟩
  · intro data
    unfold usbDispatch
    split_ifs <;> first | (right; rfl) | (left; subst_vars; decide)
  · intro v
    unfold btDispatch
    split_ifs <;> first | (right; rfl) | (left; subst_vars; decide)

/-- C7: a line outside the recognized vocabulary performs no state-store
mutation and publishes nothing — the state is returned unchanged — and the
dispatcher goes on to process the subsequent lines exactly as if the
unrecognized line had not been received. -/
theorem C7_unknown_commands_ignored (line : String) (s : DaemonState)
    (rest : List String) (h : isRecognizedCommand line = false) :
    dispatchCommand line s = (s, []) ∧
    runCommands (line :: rest) s = runCommands rest s := by
  have hd : dispatchCommand line s = (s, []) := by
    simp only [isRecognizedCommand, Bool.or_eq_false_iff, beq_eq_false_iff_ne, ne_eq] at h
    obtain ⟨⟨⟨⟨⟨⟨⟨⟨⟨⟨⟨⟨h1, h2⟩, h3⟩, h4⟩, h5⟩, h6⟩, h7⟩, h8⟩, h9⟩, h10⟩, h11⟩, h12⟩, h13⟩ := h
    simp [dispatchCommand, h1, h2, h3, h4, h5, h6, h7, h8, h9, h10, h11, h12, h13]
  refine ⟨hd, ?_⟩
  simp [runCommands, hd]

/-- C7 witness: the unrecognized line "brightness_up" mutates nothing and the
next line is still processed. -/
theorem C7_witness :
    isRecognizedCommand "brightness_up" = false ∧
    (dispatchCommand "brightness_up" initialDaemonState = (initialDaemonState, []) ∧
     runCommands ("brightness_up" :: ["backlight_toggle"]) initialDaemonState =
       runCommands ["backlight_toggle"] initialDaemonState) :=
  ⟨by simp [isRecognizedCommand],
   C7_unknown_commands_ignored "brightness_up" initialDaemonState ["backlight_toggle"]
     (by simp [isRecognizedCommand])⟩

/-- C8: `next` applied four times is the identity, and one application follows
the cyclic order Off → Low → Medium → High → Off. -/
theorem C8_backlight_cycle :
    (∀ l : KeyboardBacklightState, l.next.next.next.next = l) ∧
    KeyboardBacklightState.Off.next = KeyboardBacklightState.Low ∧
    KeyboardBacklightState.Low.next = KeyboardBacklightState.Medium ∧
    KeyboardBacklightState.Medium.next = KeyboardBacklightState.High ∧
    KeyboardBacklightState.High.next = KeyboardBacklightState.Off := by
  refine ⟨fun l => ?_, rfl, rfl, rfl, rfl⟩
  cases l <;> rfl

/-- C9: `release_all_keys` leaves the pressed-key list empty, a second call
immediately after the first emits no events at all (and leaves the state
unchanged), and the first call emits events exactly when keys were held. -/
theorem C9_release_all_idempotent :
    ∀ vk : VirtualKeyboard,
      (release_all_keys vk).1.pressed_keys = [] ∧
      release_all_keys (release_all_keys vk).1 = ((release_all_keys vk).1, []) ∧
      ((release_all_keys vk).2 = [] ↔ vk.pressed_keys = []) := by
  intro vk
  refine ⟨release_all_keys_pressed_nil vk,
    release_all_keys_of_nil _ (release_all_keys_pressed_nil vk), ?_⟩
  constructor
  · intro h2
    by_contra hne
    have hne' : vk.pressed_keys.isEmpty = false := by
      cases hvk : vk.pressed_keys with
      | nil => exact absurd hvk hne
      | cons a l => simp [hvk]
    unfold release_all_keys at h2
    rw [hne'] at h2
    simp at h2
  · intro h
    rw [release_all_keys_of_nil vk h]

/-- C10: detaching the wired keyboard unconditionally force-enables the
secondary display: from every prior state, `set_usb_keyboard_attached(false)`
sets the display flag to true and publishes SecondaryDisplay(true), and the
USBKeyboardDetached handler of the secondary-display task writes true
regardless of the previous display preference, which is not restored. -/
theorem C10_detach_forces_display_on :
    (∀ s : InnerState,
      (set_usb_keyboard_attached s false).1.is_secondary_display_enabled = true ∧
      (set_usb_keyboard_attached s false).2 = [Event.SecondaryDisplay true] ∧
      (set_usb_keyboard_attached s false).1 =
        { s with is_usb_attached := false, is_secondary_display_enabled := true }) ∧
    (∀ attached current : Bool,
      secondaryDisplayHandlerStep attached current Event.USBKeyboardDetached = some true) := by
  constructor
  · decide
  · decide

end ZenbookDuoDaemon
